import Mathlib

/-!
Shallow embedding of the document-intake / training-trigger pipeline of
`src/main.py` (repository `verozhao/document_ai`).

Conventions of the embedding:
* Firestore documents become Lean structures; the three collections used by
  `main.py` (`processed_documents`, `training_batches`, `training_configs`)
  become a `Store` structure.  `processed_documents` is a keyed association
  list (Firestore: one document per `document_id`); a `set` overwrites the
  record stored under the key.
* Python status strings (`'pending'`, `'completed'`,
  `'pending_initial_training'`, ...) are kept as Lean `String`s.
* A missing/empty `document_label` (falsy in Python) is modelled as `""`.
* Floats (classification confidence) are modelled as `Rat`; the source's
  literal `0.7` becomes `(7 : Rat) / 10`.
* Timestamps (`created_at`, `processed_at`) and the free-form
  `extracted_data` payload are not modelled: no claim mentions them.
* Calls to external services (Document AI, Cloud Workflows, GCS, `hashlib`)
  are parameters of an `Env` structure: `hashlib.md5(...).hexdigest()[:8]`
  is an arbitrary deterministic function `hash8 : String → String`, the
  outcome of `check_processor_versions` is a `Bool`, the outcome of
  `process_with_document_ai` and of the workflow launch are `Except` values
  (`.error` models a raised exception).
* Python `try/except` blocks become `Except`-valued "body" functions plus a
  wrapper that implements the handler.
-/

/-- One Firestore document of the `processed_documents` collection, as
written by `process_document_upload` (main.py lines 93-103 and 125-141). -/
structure DocRecord where
  document_id : String
  gcs_uri : String
  bucket : String
  file_name : String
  processor_id : String
  status : String
  document_label : String
  used_for_training : Bool
  document_type : Option String := none
  confidence_score : Option Rat := none
deriving Repr, DecidableEq

/-- One Firestore document of the `training_batches` collection.  Only the
two fields `check_training_conditions` reads (main.py lines 326-330) are
modelled. -/
structure TrainingBatchRec where
  processor_id : String
  status : String
deriving Repr, DecidableEq

/-- The per-processor `training_configs` document.  The field defaults are
the defaults used both when the config is created (main.py lines 308-315)
and by the `config.get(..., default)` reads (lines 321, 395, 401). -/
structure TrainingConfig where
  enabled : Bool := true
  min_documents_for_initial_training : Nat := 3
  min_documents_for_incremental : Nat := 2
deriving Repr, DecidableEq

/-- The Firestore state visible to `main.py`: the `processed_documents`
collection keyed by `document_id`, the `training_batches` collection, and
the `training_configs` document of the single configured processor. -/
structure Store where
  processed_documents : List (String × DocRecord)
  training_batches : List TrainingBatchRec
  training_config : Option TrainingConfig
deriving Repr, DecidableEq

/-- Firestore `db.collection('processed_documents').document(id).get()`. -/
def Store.getDoc (s : Store) (id : String) : Option DocRecord :=
  (s.processed_documents.find? (fun p => p.1 == id)).map (fun p => p.2)

/-- Firestore `doc_ref.set(doc_data)` (main.py line 144): full overwrite of
the record stored under `id`. -/
def Store.setDoc (s : Store) (id : String) (r : DocRecord) : Store :=
  { s with processed_documents :=
      (id, r) :: s.processed_documents.filter (fun p => p.1 ≠ id) }

/-- The `existing_doc.exists and existing_doc.to_dict().get('status') ==
'completed'` test of main.py line 83. -/
def is_completed (o : Option DocRecord) : Bool :=
  match o with
  | some r => r.status == "completed"
  | none => false

/-- The non-terminal batch statuses queried at main.py line 329. -/
def nonTerminalStatuses : List String :=
  ["pending", "preparing", "training", "deploying"]

/-- Python `str.split(sep)` for a one-character separator, on the list of
code points (e.g. `splitOnChar '/' "a/b".data = [['a'], ['b']]`,
`splitOnChar '/' "".data = [[]]`). -/
def splitOnChar (sep : Char) : List Char → List (List Char)
  | [] => [[]]
  | c :: cs =>
    let rest := splitOnChar sep cs
    if c = sep then [] :: rest
    else
      match rest with
      | r :: rs => (c :: r) :: rs
      | [] => [[c]]

/-- Python `s.split(sep)` (one-character separator), producing strings. -/
def splitChar (sep : Char) (s : String) : List String :=
  (splitOnChar sep s.data).map String.mk

/-- Python `s.replace(old, new)` for one-character `old`/`new`. -/
def replaceChar (old new : Char) (s : String) : String :=
  String.mk (s.data.map (fun c => if c = old then new else c))

/-- Python `s.startswith(p)`. -/
def str_startsWith (s p : String) : Bool :=
  p.data.isPrefixOf s.data

/-- `auto_label_document` (main.py lines 185-208): split the path on `/`;
if the file sits in a subfolder (`len(path_parts) > 2`, i.e. at least three
segments) the label is the second segment (`path_parts[1]`) with spaces
replaced by underscores, else the sentinel `OTHER`.  (The `gcs_uri`
parameter of the Python function is unused by its body and dropped here.) -/
def auto_label_document (file_name : String) : String :=
  match splitChar '/' file_name with
  | _ :: subfolder :: _ :: _ => replaceChar ' ' '_' subfolder
  | _ => "OTHER"

/-- `os.path.basename` as used at main.py line 73: the part of the path
after the last `/`. -/
def basename_of (p : String) : String :=
  (splitChar '/' p).getLastD ""

/-- Main.py line 74: `filename_only.rsplit('.', 1)[0] if '.' in
filename_only else filename_only` — drop the last extension. -/
def strip_last_ext (f : String) : String :=
  let parts := splitChar '.' f
  if parts.length ≥ 2 then String.intercalate "." parts.dropLast else f

/-- Main.py line 76, inner character map: keep alphanumerics, `-` and `_`,
replace everything else by `_`. -/
def sanitize_char (c : Char) : Char :=
  if c.isAlphanum || c == '-' || c == '_' then c else '_'

/-- Main.py line 76: replace spaces by underscores, sanitize each
character, truncate to 40 characters. -/
def safe_name_of (s : String) : String :=
  String.mk (((replaceChar ' ' '_' s).data.map sanitize_char).take 40)

/-- Main.py lines 72-77: the derived `document_id`
`f"\x7bsafe_name\x7d_\x7bfile_hash\x7d"`, where `file_hash` is the first 8 hex
digits of `hashlib.md5(file_name.encode())`, abstracted as the
deterministic function `hash8`. -/
def mkDocumentId (hash8 : String → String) (file_name : String) : String :=
  safe_name_of (strip_last_ext (basename_of file_name)) ++ "_" ++ hash8 file_name

/-- The outcomes of the store reads performed by
`check_training_conditions` (main.py lines 301-368), in source order.  An
`.error` value models the corresponding Firestore call raising. -/
structure StoreOps where
  get_config : Except String (Option TrainingConfig)
  query_active_training : Except String (List TrainingBatchRec)
  query_pending_initial : Except String (List DocRecord)
  query_unused_completed : Except String (List DocRecord)

/-- The body of `check_training_conditions` (main.py lines 301-406), i.e.
everything inside its `try`: load (or default) the config, bail out when
training is disabled or a non-terminal batch is in flight, otherwise count
the labeled candidate documents and compare them with the two thresholds
(initial first, then incremental).  A raising store read propagates as
`.error`. -/
def check_training_conditions_body (ops : StoreOps) : Except String (Bool × String) :=
  match ops.get_config with
  | .error e => .error e
  | .ok cfgOpt =>
    let config := cfgOpt.getD {}
    if config.enabled then
      match ops.query_active_training with
      | .error e => .error e
      | .ok active_training =>
        if active_training.isEmpty then
          match ops.query_pending_initial, ops.query_unused_completed with
          | .error e, _ => .error e
          | .ok _, .error e => .error e
          | .ok pending_initial_docs, .ok unused_completed_docs =>
            let pending_initial :=
              pending_initial_docs.filter (fun d => d.document_label ≠ "")
            let unused_completed :=
              unused_completed_docs.filter (fun d => d.document_label ≠ "")
            let pending_count := pending_initial.length
            let unused_count := unused_completed.length
            if pending_count ≥ config.min_documents_for_initial_training then
              .ok (true, "initial")
            else if unused_count ≥ config.min_documents_for_incremental then
              .ok (true, "incremental")
            else .ok (false, "")
        else .ok (false, "")
    else .ok (false, "")

/-- `check_training_conditions` (main.py lines 296-410): the body wrapped
in the `except Exception` handler of lines 408-410, which logs and returns
`(False, '')`. -/
def check_training_conditions (ops : StoreOps) : Bool × String :=
  match check_training_conditions_body ops with
  | .ok r => r
  | .error _ => (false, "")

/-- The store reads of `check_training_conditions` evaluated against an
in-memory `Store` (every Firestore call succeeds): the active-training
query of lines 326-330 and the two document queries of lines 353-365. -/
def Store.opsFor (s : Store) (pid : String) : StoreOps where
  get_config := .ok s.training_config
  query_active_training := .ok (s.training_batches.filter
    (fun b => b.processor_id == pid && nonTerminalStatuses.contains b.status))
  query_pending_initial := .ok ((s.processed_documents.map (fun p => p.2)).filter
    (fun d => d.processor_id == pid && d.status == "pending_initial_training"))
  query_unused_completed := .ok ((s.processed_documents.map (fun p => p.2)).filter
    (fun d => d.processor_id == pid && d.status == "completed" && d.used_for_training == false))

/-- `check_training_conditions` run against an in-memory store for
processor `pid`: the `evaluate(processor_id)` of the spec. -/
def evalStore (pid : String) (s : Store) : Bool × String :=
  check_training_conditions (s.opsFor pid)

/-- The config-creation side effect of main.py lines 306-317: when no
`training_configs` document exists, the default one is written. -/
def ensureConfig (s : Store) : Store :=
  match s.training_config with
  | some _ => s
  | none => { s with training_config := some {} }

/-- The two-stage labeled-candidate list for initial training, exactly as
`check_training_conditions` computes it (query of main.py lines 353-357,
label filter of line 371). -/
def labeled_pending_initial (pid : String) (s : Store) : List DocRecord :=
  ((s.processed_documents.map (fun p => p.2)).filter
      (fun d => d.processor_id == pid && d.status == "pending_initial_training")).filter
    (fun d => d.document_label ≠ "")

/-- The labeled unused-completed candidate list, as computed by
`check_training_conditions` (query of main.py lines 359-365, label filter
of line 372). -/
def labeled_unused_completed (pid : String) (s : Store) : List DocRecord :=
  ((s.processed_documents.map (fun p => p.2)).filter
      (fun d => d.processor_id == pid && d.status == "completed" &&
        d.used_for_training == false)).filter
    (fun d => d.document_label ≠ "")

/-- The result of `process_with_document_ai` (main.py lines 274-289) as
consumed by the caller: predicted type and confidence (the
`extracted_data` payload is not modelled). -/
structure ClassifyResult where
  document_type : String := "OTHER"
  confidence : Rat := 0
deriving Repr, DecidableEq

/-- The external world of one `process_document_upload` invocation: the
configured processor id (env var `DOCUMENT_AI_PROCESSOR_ID`), the md5
digest function of main.py line 75, the result of
`check_processor_versions` (main.py line 107; that helper returns `False`
on any listing failure, so a `Bool` is faithful), the outcome of
`process_with_document_ai` (main.py line 113), and the outcomes of the two
raising stages of `trigger_training_workflow`:
`organize_training_documents` (main.py line 636) and the workflow
`create_execution` call (main.py line 657). -/
structure Env where
  processor_id : String
  hash8 : String → String
  has_trained_version : Bool
  classify : Except String ClassifyResult
  organize_ok : Except String Unit
  launch : Except String Unit

/-- `organize_training_documents` (main.py lines 557-619), restricted to
its effect on observable state: it queries `processed_documents` for at
most 50 labeled, unused documents in the status matching the training
type, and uploads one labeled JSON blob per document (at most 20) to
`labeled_documents/<label>/<doc_id>.json` in GCS.  It performs **no**
Firestore write; the returned list is the uploaded blob paths.  (The OCR
calls inside `create_labeled_document_json` only shape the JSON payload,
which is not modelled; a labeled JSON is produced for every document even
when OCR fails, see main.py lines 493-514.) -/
def organize_training_documents (pid : String) (training_type : String) (s : Store) :
    List String :=
  let wanted_status :=
    if training_type == "initial" then "pending_initial_training" else "completed"
  let docs := ((s.processed_documents.map (fun p => p.2)).filter
    (fun d => d.processor_id == pid && d.status == wanted_status &&
      d.used_for_training == false && d.document_label ≠ "")).take 50
  (docs.take 20).map
    (fun d => "labeled_documents/" ++ d.document_label ++ "/" ++ d.document_id ++ ".json")

/-- `trigger_training_workflow` (main.py lines 622-664): stage the labeled
training JSONs in GCS via `organize_training_documents`, then start the
external workflow execution.  Either stage may raise, and the outer
`except` re-raises (lines 662-664).  The function performs **no** Firestore
write — the `workflow_triggers` bookkeeping write is commented out in the
source (lines 625-633), and no `TrainingBatch` record is created — so the
record store `s` is returned unchanged, paired with the staged blob
paths. -/
def trigger_training_workflow (env : Env) (training_type : String) (s : Store) :
    Except String (Store × List String) :=
  match env.organize_ok with
  | .error e => .error e
  | .ok _ =>
    let uploaded := organize_training_documents env.processor_id training_type s
    match env.launch with
    | .error e => .error e
    | .ok _ => .ok (s, uploaded)

/-- The structured outcome of `process_document_upload`; absent dict keys
are `none`. -/
structure IntakeResult where
  status : String
  reason : Option String := none
  document_id : Option String := none
  document_label : Option String := none
  training_triggered : Option Bool := none
  training_type : Option String := none
  error : Option String := none
deriving Repr, DecidableEq

/-- The GCS finalize event as read by `process_document_upload` (main.py
lines 61-63): `event['bucket']`, `event['name']` (raising `KeyError` when
absent, modelled as `none`), `event.get('contentType', '')`. -/
structure Event where
  bucket : Option String
  name : Option String
  contentType : Option String
deriving Repr, DecidableEq

/-- The `doc_data` record assembled by `process_document_upload` (main.py
lines 93-141): the base record of lines 93-103, then — when a deployed
model exists — classification with the low-confidence label policy of
lines 116-132, falling back to `pending_initial_training` when
classification raises (lines 133-137) or when no deployed model exists
(lines 138-141). -/
def intake_doc_data (env : Env) (bucket_name file_name document_id : String) : DocRecord :=
  let gcs_uri := "gs://" ++ bucket_name ++ "/" ++ file_name
  let document_label := auto_label_document file_name
  let base : DocRecord :=
    { document_id := document_id, gcs_uri := gcs_uri, bucket := bucket_name,
      file_name := file_name, processor_id := env.processor_id,
      status := "pending", document_label := document_label,
      used_for_training := false }
  if env.has_trained_version then
    match env.classify with
    | .ok result =>
      let predicted_type := result.document_type
      let confidence := result.confidence
      let final_label :=
        if confidence < (7 : Rat) / 10 ∧ document_label ≠ "OTHER" then document_label
        else predicted_type
      { base with
        status := "completed"
        document_type := some predicted_type
        document_label := final_label
        confidence_score := some confidence }
    | .error _ => { base with status := "pending_initial_training" }
  else
    { base with status := "pending_initial_training" }

/-- Main.py lines 72-175, after event validation and the PDF filter: the
already-processed short-circuit (lines 80-85), record assembly and save
(lines 87-144), threshold check (line 148) and — on a positive decision —
the workflow trigger with its `partial_success` handler (lines 150-168),
else the plain `success` return (lines 170-175). -/
def accepted_intake (env : Env) (bucket_name file_name : String) (s : Store) :
    IntakeResult × Store :=
  let document_id := mkDocumentId env.hash8 file_name
  if is_completed (s.getDoc document_id) then
    ({ status := "skipped", reason := some "Already processed" }, s)
  else
    let doc_data := intake_doc_data env bucket_name file_name document_id
    let s1 := s.setDoc document_id doc_data
    let decision := evalStore env.processor_id s1
    let s2 := ensureConfig s1
    if decision.1 then
      match trigger_training_workflow env decision.2 s2 with
      | .ok (s3, _) =>
        ({ status := "success", document_id := some document_id,
           document_label := some doc_data.document_label,
           training_triggered := some true,
           training_type := some decision.2 }, s3)
      | .error e =>
        ({ status := "partial_success", document_id := some document_id,
           training_triggered := some false,
           error := some ("Workflow trigger failed: " ++ e) }, s2)
    else
      ({ status := "success", document_id := some document_id,
         document_label := some doc_data.document_label,
         training_triggered := some false }, s2)

/-- The body of `process_document_upload` (main.py lines 59-175), i.e.
everything inside its `try`: read the event fields (`event['bucket']` and
`event['name']` raise `KeyError` when absent — the only uncaught raise
reachable in this model, and it happens before any store write), apply the
`documents/` + PDF filter of line 68, then run the accepted-document
path. -/
def process_document_upload_body (env : Env) (event : Event) (s : Store) :
    Except String (IntakeResult × Store) :=
  match event.bucket with
  | none => .error "KeyError: bucket"
  | some bucket_name =>
    match event.name with
    | none => .error "KeyError: name"
    | some file_name =>
      let content_type := event.contentType.getD ""
      if !(str_startsWith file_name "documents/") || !(content_type == "application/pdf") then
        .ok ({ status := "skipped", reason := some "Not a document PDF" }, s)
      else
        .ok (accepted_intake env bucket_name file_name s)

/-- `process_document_upload` (main.py lines 54-182): the body wrapped in
the catch-all handler of lines 177-182, which converts any raise into the
`status='error'` response.  (All reachable raises in the body happen
before the first store write, so returning the incoming store on error is
faithful.) -/
def process_document_upload (env : Env) (event : Event) (s : Store) :
    IntakeResult × Store :=
  match process_document_upload_body env event s with
  | .ok r => r
  | .error e => ({ status := "error", error := some e }, s)

/-! Helper lemmas about the store operations. -/

lemma getDoc_setDoc_self (s : Store) (id : String) (r : DocRecord) :
    (s.setDoc id r).getDoc id = some r := by
  simp [Store.getDoc, Store.setDoc]

lemma getDoc_ensureConfig (s : Store) (id : String) :
    (ensureConfig s).getDoc id = s.getDoc id := by
  cases h : s.training_config <;> simp [ensureConfig, h, Store.getDoc]

lemma trigger_preserves_store (env : Env) (t : String) (s s' : Store) (up : List String)
    (h : trigger_training_workflow env t s = .ok (s', up)) : s' = s := by
  unfold trigger_training_workflow at h
  cases horg : env.organize_ok with
  | error e => rw [horg] at h; exact absurd h (by simp)
  | ok u =>
    rw [horg] at h
    cases hl : env.launch with
    | error e => rw [hl] at h; exact absurd h (by simp)
    | ok v => rw [hl] at h; exact ((Prod.mk.injEq _ _ _ _).mp (Except.ok.inj h)).1.symm

/-- When every store read succeeds, which failure (if any) a call to
`trigger_training_workflow` raises depends only on `env`. -/
def trigger_failure (env : Env) : Option String :=
  match env.organize_ok with
  | .error e => some e
  | .ok _ =>
    match env.launch with
    | .error e => some e
    | .ok _ => none

lemma trigger_fails_of_failure (env : Env) (e : String) (t : String) (s : Store)
    (h : trigger_failure env = some e) :
    trigger_training_workflow env t s = .error e := by
  unfold trigger_failure at h
  unfold trigger_training_workflow
  cases horg : env.organize_ok with
  | error e2 => rw [horg] at h; simp at h; simp [h]
  | ok u =>
    rw [horg] at h
    cases hl : env.launch with
    | error e2 => rw [hl] at h; simp at h; simp [h]
    | ok v => rw [hl] at h; simp at h

/-! Claim C2: threshold decision and initial-over-incremental priority. -/

/-- C2: for every store state in which training is enabled and no
non-terminal batch exists for the processor, `check_training_conditions`
returns `(true, "initial")` iff the labeled pending-initial count reaches
`min_documents_for_initial_training`, else `(true, "incremental")` iff the
labeled unused-completed count reaches `min_documents_for_incremental`,
else `(false, "")`; when both thresholds hold the first branch wins, so the
returned kind is `"initial"`, never `"incremental"`. -/
theorem evaluate_threshold_decision (pid : String) (s : Store)
    (henabled : (s.training_config.getD {}).enabled = true)
    (hactive : s.training_batches.filter
      (fun b => b.processor_id == pid && nonTerminalStatuses.contains b.status) = []) :
    evalStore pid s =
      (if (labeled_pending_initial pid s).length ≥
          (s.training_config.getD {}).min_documents_for_initial_training then
        (true, "initial")
      else if (labeled_unused_completed pid s).length ≥
          (s.training_config.getD {}).min_documents_for_incremental then
        (true, "incremental")
      else (false, "")) := by
  unfold evalStore check_training_conditions check_training_conditions_body Store.opsFor
  simp only [labeled_pending_initial, labeled_unused_completed] at *
  rw [hactive]
  simp [henabled]
  split_ifs <;> rfl

/-- A pending-initial-training document for the witness stores. -/
def wPendingDoc (i : String) : DocRecord :=
  { document_id := i
    gcs_uri := "gs://b/documents/tax/" ++ i ++ ".pdf"
    bucket := "b"
    file_name := "documents/tax/" ++ i ++ ".pdf"
    processor_id := "p1"
    status := "pending_initial_training"
    document_label := "tax"
    used_for_training := false }

/-- An unused completed document for the witness stores. -/
def wCompletedDoc (i : String) : DocRecord :=
  { document_id := i
    gcs_uri := "gs://b/documents/fs/" ++ i ++ ".pdf"
    bucket := "b"
    file_name := "documents/fs/" ++ i ++ ".pdf"
    processor_id := "p1"
    status := "completed"
    document_label := "financial_statement"
    used_for_training := false }

/-- Witness store for C2: both thresholds met simultaneously (3 labeled
pending-initial documents and 2 labeled unused completed ones), training
enabled, no batch in flight. -/
def c2Store : Store :=
  { processed_documents :=
      [("a", wPendingDoc "a"), ("b", wPendingDoc "b"), ("c", wPendingDoc "c"),
       ("d", wCompletedDoc "d"), ("e", wCompletedDoc "e")]
    training_batches := []
    training_config := some {} }

/-- Witness for C2: on `c2Store` both thresholds hold and the evaluator
answers `(true, "initial")`, not `"incremental"`. -/
theorem evaluate_threshold_decision_witness :
    evalStore "p1" c2Store = (true, "initial") := by
  rw [evaluate_threshold_decision "p1" c2Store (by decide) (by decide)]
  decide

/-! Claim C3: single-flight mutual exclusion. -/

/-- C3: for every store state containing a `TrainingBatch` for the
processor whose status is in the non-terminal set
`\x7bpending, preparing, training, deploying\x7d`, `check_training_conditions`
returns `(false, "")`, regardless of the document counts and of the
configured thresholds. -/
theorem evaluate_single_flight (pid : String) (s : Store) (b : TrainingBatchRec)
    (hb : b ∈ s.training_batches) (hpid : b.processor_id = pid)
    (hst : b.status ∈ nonTerminalStatuses) :
    evalStore pid s = (false, "") := by
  have hmem : b ∈ s.training_batches.filter
      (fun b => b.processor_id == pid && nonTerminalStatuses.contains b.status) :=
    List.mem_filter.mpr ⟨hb, by simp [hpid, hst]⟩
  have hie : (s.training_batches.filter
      (fun b => b.processor_id == pid && nonTerminalStatuses.contains b.status)).isEmpty
        = false := by
    simp [List.isEmpty_iff]
    exact ⟨b, hb, hpid, hst⟩
  unfold evalStore check_training_conditions check_training_conditions_body Store.opsFor
  by_cases h : (s.training_config.getD {}).enabled
  · simp only [h, hie]
    rfl
  · simp [h]

/-- Witness store for C3: a batch with status `training` is in flight even
though the initial-training threshold is met by the document counts. -/
def c3Store : Store :=
  { processed_documents :=
      [("a", wPendingDoc "a"), ("b", wPendingDoc "b"), ("c", wPendingDoc "c")]
    training_batches := [{ processor_id := "p1", status := "training" }]
    training_config := some {} }

/-- Witness for C3: on `c3Store` the in-flight `training` batch forces
`(false, "")` although three labeled pending-initial documents exist. -/
theorem evaluate_single_flight_witness : evalStore "p1" c3Store = (false, "") :=
  evaluate_single_flight "p1" c3Store { processor_id := "p1", status := "training" }
    (by decide) (by decide) (by decide)

/-! Claim C6: folder-based label derivation. -/

/-- C6: `auto_label_document` is a pure function of the path; for every
path of the form `documents/<folder>/<file>` (i.e. splitting on `/` yields
`"documents" :: folder :: rest` with `rest ≠ []`) it returns the folder
segment with spaces replaced by underscores; for every path directly under
the root (exactly two segments) it returns the sentinel `OTHER`; in
particular `documents/capital_call/x.pdf ↦ capital_call` and
`documents/x.pdf ↦ OTHER`. -/
theorem assign_label_spec :
    (∀ (p f : String) (rest : List String),
        splitChar '/' p = "documents" :: f :: rest → rest ≠ [] →
        auto_label_document p = replaceChar ' ' '_' f)
    ∧ (∀ (p file : String), splitChar '/' p = ["documents", file] →
        auto_label_document p = "OTHER")
    ∧ auto_label_document "documents/capital_call/x.pdf" = "capital_call"
    ∧ auto_label_document "documents/x.pdf" = "OTHER" := by
  refine ⟨?_, ?_, by decide, by decide⟩
  · intro p f rest h hne
    unfold auto_label_document
    rw [h]
    cases rest with
    | nil => exact absurd rfl hne
    | cons r rs => rfl
  · intro p file h
    unfold auto_label_document
    rw [h]

/-- Witness for C6: the folder branch applied to a concrete path whose
folder name contains a space. -/
theorem assign_label_spec_witness :
    auto_label_document "documents/cap call/y.pdf" = replaceChar ' ' '_' "cap call" :=
  assign_label_spec.1 "documents/cap call/y.pdf" "cap call" ["y.pdf"] (by decide) (by decide)

/-! Intake-handler helper lemmas shared by the claims below. -/

lemma process_accepts (env : Env) (event : Event) (s : Store) (b n : String)
    (hb : event.bucket = some b) (hn : event.name = some n)
    (hct : event.contentType = some "application/pdf")
    (hroot : str_startsWith n "documents/" = true) :
    process_document_upload env event s = accepted_intake env b n s := by
  unfold process_document_upload process_document_upload_body
  rw [hb, hn, hct]
  simp [hroot]

lemma accepted_intake_result (env : Env) (b n : String) (s : Store)
    (hnc : is_completed (s.getDoc (mkDocumentId env.hash8 n)) = false) :
    ((accepted_intake env b n s).2).getDoc (mkDocumentId env.hash8 n)
        = some (intake_doc_data env b n (mkDocumentId env.hash8 n))
    ∧ ((accepted_intake env b n s).1.status = "success"
        ∨ ((accepted_intake env b n s).1.status = "partial_success")) := by
  unfold accepted_intake
  simp only [hnc, Bool.false_eq_true, if_false]
  constructor
  · split
    · split
      · rename_i s3 up heq
        rw [trigger_preserves_store _ _ _ _ _ heq, getDoc_ensureConfig, getDoc_setDoc_self]
      · rw [getDoc_ensureConfig, getDoc_setDoc_self]
    · rw [getDoc_ensureConfig, getDoc_setDoc_self]
  · split
    · split
      · left; rfl
      · right; rfl
    · left; rfl

/-! Claim C4: idempotence of the intake on already-completed documents. -/

/-- C4: for every inbound event with bucket, a `documents/` PDF path and
`application/pdf` content type whose derived `document_id` already has a
stored record with status `completed`, `process_document_upload` returns
`status = "skipped"` with reason `"Already processed"` and leaves the store
unchanged — no second record is created and the existing one is not
overwritten.  The theorem holds for every `env`, in particular for every
classification outcome, so no classification is performed (the result does
not depend on `env.classify`). -/
theorem intake_idempotent (env : Env) (event : Event) (s : Store) (b n : String)
    (hb : event.bucket = some b) (hn : event.name = some n)
    (hct : event.contentType = some "application/pdf")
    (hroot : str_startsWith n "documents/" = true)
    (rec : DocRecord) (hrec : s.getDoc (mkDocumentId env.hash8 n) = some rec)
    (hcomp : rec.status = "completed") :
    process_document_upload env event s =
      ({ status := "skipped", reason := some "Already processed" }, s) := by
  rw [process_accepts env event s b n hb hn hct hroot]
  unfold accepted_intake
  simp [is_completed, hrec, hcomp]

/-- The already-completed record of the C4 witness store. -/
def c4CompletedRec : DocRecord :=
  { document_id := "a_h"
    gcs_uri := "gs://b/documents/tax/a.pdf"
    bucket := "b"
    file_name := "documents/tax/a.pdf"
    processor_id := "p1"
    status := "completed"
    document_label := "tax"
    used_for_training := false }

/-- Witness store for C4: the derived id `a_h` is already completed. -/
def c4Store : Store :=
  { processed_documents := [("a_h", c4CompletedRec)]
    training_batches := []
    training_config := some {} }

/-- Witness environment for C4 (a deployed model exists and would classify
successfully — the intake must not consult it). -/
def c4Env : Env :=
  { processor_id := "p1"
    hash8 := fun _ => "h"
    has_trained_version := true
    classify := .ok { document_type := "tax", confidence := 9 / 10 }
    organize_ok := .ok ()
    launch := .ok () }

/-- The redelivered GCS event of the C4 witness. -/
def c4Event : Event :=
  { bucket := some "b"
    name := some "documents/tax/a.pdf"
    contentType := some "application/pdf" }

/-- Witness for C4: redelivering the event for the completed document
yields the skipped response and the unchanged store. -/
theorem intake_idempotent_witness :
    process_document_upload c4Env c4Event c4Store =
      ({ status := "skipped", reason := some "Already processed" }, c4Store) :=
  intake_idempotent c4Env c4Event c4Store "b" "documents/tax/a.pdf"
    rfl rfl rfl (by decide) c4CompletedRec (by decide) rfl

/-! Claim C5: fallback to pending-initial-training when classification raises. -/

/-- C5: for every accepted document event (bucket present, `documents/`
PDF path, not already completed) where a deployed model exists
(`has_trained_version = true`) but the classification call raises
(`env.classify = .error e`), the intake persists the record with status
`pending_initial_training` (not `failed`), and processing continues to the
threshold evaluation instead of aborting: the returned status is
`success` or `partial_success`, never `error`. -/
theorem classify_error_falls_back (env : Env) (event : Event) (s : Store) (b n e : String)
    (hb : event.bucket = some b) (hn : event.name = some n)
    (hct : event.contentType = some "application/pdf")
    (hroot : str_startsWith n "documents/" = true)
    (hnc : is_completed (s.getDoc (mkDocumentId env.hash8 n)) = false)
    (htr : env.has_trained_version = true)
    (hcl : env.classify = .error e) :
    (((process_document_upload env event s).2).getDoc (mkDocumentId env.hash8 n)).map
        (fun d => d.status) = some "pending_initial_training"
    ∧ ((process_document_upload env event s).1.status = "success"
        ∨ ((process_document_upload env event s).1.status = "partial_success")) := by
  rw [process_accepts env event s b n hb hn hct hroot]
  obtain ⟨h1, h2⟩ := accepted_intake_result env b n s hnc
  refine ⟨?_, h2⟩
  rw [h1]
  simp [intake_doc_data, htr, hcl]

/-- Witness environment for C5: a deployed model whose classification call
raises. -/
def c5Env : Env :=
  { processor_id := "p1"
    hash8 := fun _ => "h"
    has_trained_version := true
    classify := .error "DocumentAI unavailable"
    organize_ok := .ok ()
    launch := .ok () }

/-- Witness store for C5: empty. -/
def c5Store : Store :=
  { processed_documents := []
    training_batches := []
    training_config := some {} }

/-- The uploaded-document event of the C5 witness. -/
def c5Event : Event :=
  { bucket := some "b"
    name := some "documents/tax/a.pdf"
    contentType := some "application/pdf" }

/-- Witness for C5: with a raising classifier the stored record ends in
status `pending_initial_training` and the intake does not abort. -/
theorem classify_error_falls_back_witness :
    (((process_document_upload c5Env c5Event c5Store).2).getDoc
        (mkDocumentId c5Env.hash8 "documents/tax/a.pdf")).map
      (fun d => d.status) = some "pending_initial_training"
    ∧ ((process_document_upload c5Env c5Event c5Store).1.status = "success"
        ∨ ((process_document_upload c5Env c5Event c5Store).1.status = "partial_success")) :=
  classify_error_falls_back c5Env c5Event c5Store "b" "documents/tax/a.pdf"
    "DocumentAI unavailable" rfl rfl rfl (by decide) (by decide) rfl rfl

/-! Claim C7: low-confidence predictions keep the folder-derived label. -/

/-- C7: for every accepted, not-yet-completed document event where
classification succeeds with confidence strictly below `0.7`, the
persisted record is `completed` and its `document_label` is the
folder-derived label when that label is not the `OTHER` sentinel, and the
model's predicted label otherwise. -/
theorem low_confidence_keeps_folder_label (env : Env) (event : Event) (s : Store)
    (b n : String) (r : ClassifyResult)
    (hb : event.bucket = some b) (hn : event.name = some n)
    (hct : event.contentType = some "application/pdf")
    (hroot : str_startsWith n "documents/" = true)
    (hnc : is_completed (s.getDoc (mkDocumentId env.hash8 n)) = false)
    (htr : env.has_trained_version = true)
    (hcl : env.classify = .ok r)
    (hconf : r.confidence < (7 : Rat) / 10) :
    (((process_document_upload env event s).2).getDoc (mkDocumentId env.hash8 n)).map
        (fun d => (d.document_label, d.status)) =
      some ((if auto_label_document n ≠ "OTHER" then auto_label_document n
             else r.document_type), "completed") := by
  rw [process_accepts env event s b n hb hn hct hroot]
  obtain ⟨h1, _⟩ := accepted_intake_result env b n s hnc
  rw [h1]
  simp [intake_doc_data, htr, hcl, hconf]

/-- Witness environment for C7: a deployed model predicting `misc` with
confidence `0.5 < 0.7`. -/
def c7Env : Env :=
  { processor_id := "p1"
    hash8 := fun _ => "h"
    has_trained_version := true
    classify := .ok { document_type := "misc", confidence := 1 / 2 }
    organize_ok := .ok ()
    launch := .ok () }

/-- Witness store for C7: empty. -/
def c7Store : Store :=
  { processed_documents := []
    training_batches := []
    training_config := some {} }

/-- The uploaded-document event of the C7 witness (folder label `tax`). -/
def c7Event : Event :=
  { bucket := some "b"
    name := some "documents/tax/a.pdf"
    contentType := some "application/pdf" }

/-- Witness for C7: the low-confidence `misc` prediction is overridden by
the folder label `tax` on the completed record. -/
theorem low_confidence_keeps_folder_label_witness :
    (((process_document_upload c7Env c7Event c7Store).2).getDoc
        (mkDocumentId c7Env.hash8 "documents/tax/a.pdf")).map
      (fun d => (d.document_label, d.status)) =
      some ((if auto_label_document "documents/tax/a.pdf" ≠ "OTHER" then
              auto_label_document "documents/tax/a.pdf"
             else ({ document_type := "misc", confidence := 1 / 2 } : ClassifyResult).document_type),
            "completed") :=
  low_confidence_keeps_folder_label c7Env c7Event c7Store "b" "documents/tax/a.pdf"
    { document_type := "misc", confidence := 1 / 2 }
    rfl rfl rfl (by decide) (by decide) rfl rfl (by norm_num)

/-! Claim C10: workflow-trigger failure yields partial_success and keeps
the record. -/

/-- C10: for every accepted, not-yet-completed document event where the
threshold evaluation on the just-written store is positive but the
training-workflow trigger raises, `process_document_upload` returns
`status = "partial_success"` with `training_triggered = false` and an
error message, and the record persisted earlier in the same invocation is
still in the final store, unchanged. -/
theorem trigger_failure_partial_success (env : Env) (event : Event) (s : Store)
    (b n e : String)
    (hb : event.bucket = some b) (hn : event.name = some n)
    (hct : event.contentType = some "application/pdf")
    (hroot : str_startsWith n "documents/" = true)
    (hnc : is_completed (s.getDoc (mkDocumentId env.hash8 n)) = false)
    (hdec : (evalStore env.processor_id (s.setDoc (mkDocumentId env.hash8 n)
        (intake_doc_data env b n (mkDocumentId env.hash8 n)))).1 = true)
    (hfail : trigger_failure env = some e) :
    (process_document_upload env event s).1 =
      { status := "partial_success"
        document_id := some (mkDocumentId env.hash8 n)
        training_triggered := some false
        error := some ("Workflow trigger failed: " ++ e) }
    ∧ ((process_document_upload env event s).2).getDoc (mkDocumentId env.hash8 n)
        = some (intake_doc_data env b n (mkDocumentId env.hash8 n)) := by
  rw [process_accepts env event s b n hb hn hct hroot]
  unfold accepted_intake
  simp only [hnc, Bool.false_eq_true, if_false]
  rw [hdec]
  simp only [if_true]
  rw [trigger_fails_of_failure env e _ _ hfail]
  exact ⟨rfl, by rw [getDoc_ensureConfig, getDoc_setDoc_self]⟩

/-- Witness environment for C10: no deployed model, and the GCS staging
step of the workflow trigger raises. -/
def c10Env : Env :=
  { processor_id := "p1"
    hash8 := fun _ => "h"
    has_trained_version := false
    classify := .error "no deployed model"
    organize_ok := .error "GCS unavailable"
    launch := .ok () }

/-- Witness store for C10: two labeled pending-initial documents, so the
third upload satisfies the initial-training threshold. -/
def c10Store : Store :=
  { processed_documents := [("a", wPendingDoc "a"), ("b", wPendingDoc "b")]
    training_batches := []
    training_config := some {} }

/-- The uploaded-document event of the C10 witness. -/
def c10Event : Event :=
  { bucket := some "b"
    name := some "documents/tax/c.pdf"
    contentType := some "application/pdf" }

/-- Witness for C10: the threshold fires on the third document, the
trigger raises, the intake answers `partial_success` and the written
record survives. -/
theorem trigger_failure_partial_success_witness :
    (process_document_upload c10Env c10Event c10Store).1 =
      { status := "partial_success"
        document_id := some (mkDocumentId c10Env.hash8 "documents/tax/c.pdf")
        training_triggered := some false
        error := some ("Workflow trigger failed: " ++ "GCS unavailable") }
    ∧ ((process_document_upload c10Env c10Event c10Store).2).getDoc
        (mkDocumentId c10Env.hash8 "documents/tax/c.pdf")
        = some (intake_doc_data c10Env "b" "documents/tax/c.pdf"
            (mkDocumentId c10Env.hash8 "documents/tax/c.pdf")) :=
  trigger_failure_partial_success c10Env c10Event c10Store "b" "documents/tax/c.pdf"
    "GCS unavailable" rfl rfl rfl (by decide) (by decide) (by decide) rfl

/-! Claim C1 (corrected): the trigger performs no training-batch
bookkeeping. -/

/-- Environment for the C1 scenario: no deployed model, workflow launch
succeeds. -/
def c1Env : Env :=
  { processor_id := "p1"
    hash8 := fun _ => "h"
    has_trained_version := false
    classify := .error "no deployed model"
    organize_ok := .ok ()
    launch := .ok () }

/-- Store for the C1 scenario: two labeled pending-initial documents; the
third upload reaches the initial-training threshold of 3. -/
def c1Store : Store :=
  { processed_documents := [("a", wPendingDoc "a"), ("b", wPendingDoc "b")]
    training_batches := []
    training_config := some {} }

/-- The third upload of the C1 scenario. -/
def c1Event : Event :=
  { bucket := some "b"
    name := some "documents/tax/c.pdf"
    contentType := some "application/pdf" }

/-- Counterexample to C1 as stated: a concrete triggered round (the third
upload satisfies the threshold, the workflow launch succeeds and the
intake reports `training_triggered = true`, kind `initial`) after which
the store contains **no** TrainingBatch record at all (in particular none
with status `pending` holding the selected ids), every selected document
still has `used_for_training = false`, and the evaluator still answers
`(true, "initial")` — the selected documents remain claimable by a later
round. -/
theorem trigger_no_bookkeeping_counterexample :
    (process_document_upload c1Env c1Event c1Store).1.training_triggered = some true
    ∧ (process_document_upload c1Env c1Event c1Store).1.training_type = some "initial"
    ∧ ((process_document_upload c1Env c1Event c1Store).2).training_batches = []
    ∧ ((process_document_upload c1Env c1Event c1Store).2).processed_documents.map
        (fun p => p.2.used_for_training) = [false, false, false]
    ∧ evalStore "p1" (process_document_upload c1Env c1Event c1Store).2
        = (true, "initial") := by
  decide

/-- C1 (amended): on a positive threshold decision
`trigger_training_workflow` stages the labeled training JSONs in object
storage and invokes the external training-job launcher, but writes no
TrainingBatch record and marks no DocumentRecord (`used_for_training` and
`training_batch_id` are untouched): whenever it returns successfully the
record store is unchanged, so the selected documents remain claimable by a
later round — the batch bookkeeping the spec describes is delegated to the
external workflow, which is outside this code. -/
theorem trigger_training_leaves_store_unchanged (env : Env) (t : String)
    (s s2 : Store) (up : List String)
    (h : trigger_training_workflow env t s = .ok (s2, up)) : s2 = s :=
  trigger_preserves_store env t s s2 up h

/-- Witness for the amended C1: a concrete successful trigger returns the
store it was given. -/
theorem trigger_training_leaves_store_unchanged_witness :
    trigger_training_workflow c1Env "initial" c1Store =
      .ok (c1Store, ["labeled_documents/tax/a.json", "labeled_documents/tax/b.json"])
    ∧ c1Store = c1Store :=
  ⟨rfl, trigger_training_leaves_store_unchanged c1Env "initial" c1Store c1Store
    ["labeled_documents/tax/a.json", "labeled_documents/tax/b.json"] rfl⟩

/-! Claim C8 (corrected): malformed events are rejected with status
`error`, not `skipped`. -/

/-- Environment for the C8 scenario. -/
def c8Env : Env :=
  { processor_id := "p1"
    hash8 := fun _ => "h"
    has_trained_version := false
    classify := .error "no deployed model"
    organize_ok := .ok ()
    launch := .ok () }

/-- A malformed event: the `bucket` field is missing. -/
def c8Event : Event :=
  { bucket := none
    name := some "documents/tax/a.pdf"
    contentType := some "application/pdf" }

/-- Store for the C8 scenario: empty. -/
def c8Store : Store :=
  { processed_documents := []
    training_batches := []
    training_config := none }

/-- Counterexample to C8 as stated: on a concrete event missing `bucket`,
the handler's returned status is `"error"` (the `KeyError` from
`event['bucket']` reaches the catch-all of main.py lines 177-182), not
`"skipped"` as the claim says; the store is indeed left unchanged. -/
theorem malformed_event_error_counterexample :
    (process_document_upload c8Env c8Event c8Store).1.status = "error"
    ∧ ¬((process_document_upload c8Env c8Event c8Store).1.status = "skipped")
    ∧ (process_document_upload c8Env c8Event c8Store).2 = c8Store := by
  decide

/-- C8 (amended): for every inbound event missing the bucket or the name
field, the intake handler rejects it locally with returned status
`"error"` (not `"skipped"`), and no DocumentRecord is written — the store
is unchanged. -/
theorem malformed_event_rejected_no_write (env : Env) (event : Event) (s : Store)
    (h : event.bucket = none ∨ event.name = none) :
    (process_document_upload env event s).1.status = "error"
    ∧ (process_document_upload env event s).2 = s := by
  unfold process_document_upload process_document_upload_body
  rcases h with h | h
  · rw [h]
    exact ⟨rfl, rfl⟩
  · cases hb : event.bucket with
    | none => exact ⟨rfl, rfl⟩
    | some b =>
      rw [h]
      exact ⟨rfl, rfl⟩

/-- Witness for the amended C8: the event with a missing bucket is
rejected with status `error` and the store survives untouched. -/
theorem malformed_event_rejected_no_write_witness :
    (c8Event.bucket = none ∨ c8Event.name = none)
    ∧ ((process_document_upload c8Env c8Event c8Store).1.status = "error"
        ∧ (process_document_upload c8Env c8Event c8Store).2 = c8Store) :=
  ⟨Or.inl rfl, malformed_event_rejected_no_write c8Env c8Event c8Store (Or.inl rfl)⟩

/-! Claim C9 (corrected): evaluator failures are swallowed, not
propagated. -/

/-- Store reads for the C9 scenario: the config read succeeds, every
later Firestore query raises. -/
def c9FailingOps : StoreOps :=
  { get_config := .ok (some {})
    query_active_training := .error "firestore read failed"
    query_pending_initial := .error "firestore read failed"
    query_unused_completed := .error "firestore read failed"}

/-- Counterexample to C9 as stated: on a concrete store whose reads raise
during `evaluate`, the body of `check_training_conditions` raises (the
failure is real), yet the function returns `(false, "")` — the
`except Exception` handler of main.py lines 408-410 silently converts the
failure into a "do not train" result instead of letting it propagate. -/
theorem evaluator_swallow_counterexample :
    check_training_conditions_body c9FailingOps = .error "firestore read failed"
    ∧ check_training_conditions c9FailingOps = (false, "") :=
  ⟨rfl, rfl⟩

/-- C9 (amended): failures inside the Threshold Evaluator are **not**
fatal: whenever any store read inside `check_training_conditions` raises,
the surrounding handler catches the exception and converts it into the
`(false, "")` "do not train" result; nothing propagates to the caller. -/
theorem evaluator_swallows_failures (ops : StoreOps) (e : String)
    (h : check_training_conditions_body ops = .error e) :
    check_training_conditions ops = (false, "") := by
  unfold check_training_conditions
  rw [h]

/-- Witness for the amended C9: the failing store reads produce the
`(false, "")` answer. -/
theorem evaluator_swallows_failures_witness :
    check_training_conditions c9FailingOps = (false, "") :=
  evaluator_swallows_failures c9FailingOps "firestore read failed" rfl
